import Mathlib

/-!
Verification of the scheduler core of `caffe2/core/net_async_base.cc`
(`AsyncNetBase`), via a shallow embedding.

Modelling conventions:
* `EventStatus` and the per-chain tail `Event` follow the event abstraction
  used by the scheduler.  The `Event` class itself lives outside this file of
  the repository, so its operations (`SetFinished`, `Finish`, `ResetEvent`,
  `CanSchedule`) are modelled from the spec where needed; each such
  definition carries a doc comment saying so.
* A blocking `Finish()` call resolves an in-flight (SCHEDULED) event to a
  terminal status determined by the asynchronous work itself; we pass that
  externally determined terminal status in as an explicit `outcome`
  (respectively a `resolve` function indexed by task id).
* C++ exceptions are modelled by an `Exn` value; a function that may throw
  returns `Option`/an explicit outcome datatype instead.
* Thread-local or mutex-guarded mutable state (stream counters, the caught
  exception slot, the events vector) is passed as explicit state.
-/

set_option autoImplicit false

namespace AsyncNet

/-- Status enum of the event abstraction: INITIALIZED, SCHEDULED, SUCCESS,
FAILED (see spec section 3, entity Event). -/
inductive EventStatus where
  | INITIALIZED
  | SCHEDULED
  | SUCCESS
  | FAILED
  deriving DecidableEq, Repr, Inhabited

/-- A status is terminal when it is SUCCESS or FAILED. -/
def EventStatus.isTerminal : EventStatus → Bool
  | .SUCCESS => true
  | .FAILED => true
  | _ => false

/-- A per-operator completion event: its status and (for failures) an error
message. -/
structure Event where
  status : EventStatus
  errMsg : Option String
  deriving DecidableEq, Repr, Inhabited

/-- Modelled from the spec: `Event::SetFinished(msg?)` forces a transition to
a terminal status (the Event class is not under src/).  With an error message
the event becomes FAILED carrying that message; without one it becomes
SUCCESS. -/
def Event.setFinished (e : Event) (msg : Option String) : Event :=
  match msg with
  | some m => { e with status := .FAILED, errMsg := some m }
  | none => { e with status := .SUCCESS }

/-- Modelled from the spec: `Event::Finish()` blocks until the event reaches a
terminal status (the Event class is not under src/).  `outcome` is the
terminal status the asynchronous work resolves to; an already terminal event
is left unchanged. -/
def Event.finish (e : Event) (outcome : EventStatus) : Event :=
  if e.status.isTerminal then e else { e with status := outcome }

/-- Body of the `finalizeEvents` loop for one task (net_async_base.cc lines
445-452): query the status; Finish a SCHEDULED event, SetFinished an
INITIALIZED one, leave the rest alone. -/
def finalizeOne (resolve : Nat → EventStatus) (t : Nat) (e : Event) : Event :=
  match e.status with
  | .SCHEDULED => e.finish (resolve t)
  | .INITIALIZED => e.setFinished none
  | _ => e

/-- The `finalizeEvents` for-loop over task ids starting at `t`. -/
def finalizeFrom (resolve : Nat → EventStatus) : Nat → List Event → List Event
  | _, [] => []
  | t, e :: rest => finalizeOne resolve t e :: finalizeFrom resolve (t + 1) rest

/-- `AsyncNetBase::finalizeEvents` (net_async_base.cc lines 444-453) acting on
the per-task tail events; `resolve t` is the terminal status the blocking
`Finish()` call on task `t` resolves to. -/
def finalizeEvents (resolve : Nat → EventStatus) (events : List Event) : List Event :=
  finalizeFrom resolve 0 events

theorem finalizeOne_terminal (resolve : Nat → EventStatus) (t : Nat) (e : Event)
    (hres : (resolve t).isTerminal = true) :
    ((finalizeOne resolve t e).status).isTerminal = true := by
  obtain ⟨s, m⟩ := e
  cases s <;> cases hr : resolve t <;>
    simp_all [finalizeOne, Event.finish, Event.setFinished, EventStatus.isTerminal]

theorem finalizeOne_of_terminal (resolve : Nat → EventStatus) (t : Nat) (e : Event)
    (h : e.status.isTerminal = true) : finalizeOne resolve t e = e := by
  obtain ⟨s, m⟩ := e
  cases s <;> simp_all [finalizeOne, EventStatus.isTerminal]

theorem finalizeFrom_mem (resolve : Nat → EventStatus)
    (hres : ∀ u, (resolve u).isTerminal = true) :
    ∀ (l : List Event) (t : Nat), ∀ e ∈ finalizeFrom resolve t l,
      e.status.isTerminal = true := by
  intro l
  induction l with
  | nil => intro t e he; simp [finalizeFrom] at he
  | cons a rest ih =>
      intro t e he
      simp only [finalizeFrom, List.mem_cons] at he
      rcases he with h | h
      · subst h; exact finalizeOne_terminal resolve t a (hres t)
      · exact ih (t + 1) e h

theorem finalizeFrom_getElem? (resolve : Nat → EventStatus) :
    ∀ (l : List Event) (t i : Nat),
      (finalizeFrom resolve t l)[i]? = (l[i]?).map (finalizeOne resolve (t + i)) := by
  intro l
  induction l with
  | nil => intro t i; simp [finalizeFrom]
  | cons a rest ih =>
      intro t i
      cases i with
      | zero => simp [finalizeFrom]
      | succ j =>
          have h1 : (finalizeFrom resolve t (a :: rest))[j + 1]? =
              (finalizeFrom resolve (t + 1) rest)[j]? := by
            simp [finalizeFrom]
          rw [h1, ih (t + 1) j]
          have h2 : t + 1 + j = t + (j + 1) := by omega
          rw [h2]
          simp

/-- C1: after `finalizeEvents` returns, every chain tail event is terminal:
a SCHEDULED event is driven terminal by the blocking `Finish()` (whose
resolved status is terminal), an INITIALIZED event is forced terminal by
`SetFinished()`, and events that were already terminal are left exactly as
they were. -/
theorem c1_finalizeEvents_terminal (resolve : Nat → EventStatus) (events : List Event)
    (hres : ∀ t, (resolve t).isTerminal = true) :
    (∀ e ∈ finalizeEvents resolve events, e.status.isTerminal = true) ∧
    (∀ (t : Nat) (e : Event), events[t]? = some e → e.status.isTerminal = true →
      (finalizeEvents resolve events)[t]? = some e) := by
  constructor
  · exact finalizeFrom_mem resolve hres events 0
  · intro t e het hterm
    rw [finalizeEvents, finalizeFrom_getElem? resolve events 0 t, het]
    simp [finalizeOne_of_terminal resolve t e hterm]

/-- Concrete inputs for the C1 witness: one scheduled, one never-run and one
already failed chain. -/
def c1Events : List Event :=
  [⟨.SCHEDULED, none⟩, ⟨.INITIALIZED, none⟩, ⟨.FAILED, some "boom"⟩]

/-- Resolution of blocking Finish calls used by the C1 witness. -/
def c1Resolve : Nat → EventStatus := fun _ => EventStatus.SUCCESS

/-- Witness for C1 at a concrete event vector. -/
theorem c1_finalizeEvents_terminal_witness :
    (∀ t, (c1Resolve t).isTerminal = true) ∧
    ((∀ e ∈ finalizeEvents c1Resolve c1Events, e.status.isTerminal = true) ∧
     (∀ (t : Nat) (e : Event), c1Events[t]? = some e → e.status.isTerminal = true →
       (finalizeEvents c1Resolve c1Events)[t]? = some e)) :=
  ⟨fun _ => rfl, c1_finalizeEvents_terminal c1Resolve c1Events (fun _ => rfl)⟩

/-- A C++ exception: either a std::exception with its what() string, or an
unknown thrown object (the catch-all branch). -/
inductive Exn where
  | stdExn (what : String)
  | unknownExn
  deriving DecidableEq, Repr

/-- The message text extracted from a caught exception in
`AsyncNetBase::run`: `e.what()` for a std::exception, the fixed string for
the catch-all branch (net_async_base.cc lines 415-432). -/
def exnWhat : Exn → String
  | .stdExn w => w
  | .unknownExn => "Failed to execute task: unknown error"

/-- `AsyncNetBase::storeExceptionPtr` (net_async_base.cc lines 356-363): the
mutex-guarded error slot takes the current exception only when it is still
empty (first writer wins). -/
def storeExceptionPtr (slot : Option Exn) (e : Exn) : Option Exn :=
  match slot with
  | none => some e
  | some _ => slot

/-- Outcome of executing one operator from a chain: `RunAsync` returned true,
returned false, threw a std::exception, or threw something else.  Profiling
instrumentation around the call (trace events, per-op timers, the profiling
`Finish()` on non-CPU ops) only touches external profiling state, so the
modelled outcome covers the whole per-op step. -/
inductive OpResult where
  | succ
  | fail
  | throwStd (what : String)
  | throwUnknown
  deriving DecidableEq, Repr, Inhabited

/-- The exception an operator step throws, if any. -/
def OpResult.thrownExn : OpResult → Option Exn
  | .throwStd w => some (.stdExn w)
  | .throwUnknown => some .unknownExn
  | _ => none

/-- An operator as seen by `AsyncNetBase::run`: the outcome of its
`RunAsync`, plus the fields consulted when building error messages. -/
structure Op where
  result : OpResult
  hasDebugDef : Bool
  opType : String
  deriving DecidableEq, Repr, Inhabited

/-- The `<type-or-unknown>` part of the error messages in
`AsyncNetBase::run`: `op->has_debug_def() ? op->type() : " unknown"`. -/
def opLabel (op : Op) : String :=
  if op.hasDebugDef then op.opType else " unknown"

/-- The error message built when an operator returns false
(net_async_base.cc lines 403-404). -/
def opFailureMsg (op : Op) : String :=
  "Failed to execute an op: " ++ opLabel op

/-- The error message built when an operator throws: the exception text,
annotated with the offending op (net_async_base.cc lines 417-419 and
426-428). -/
def opExnMsg (e : Exn) (op : Op) : String :=
  exnWhat e ++ ",  op " ++ opLabel op

/-- The static part of the net consulted by `AsyncNetBase::run`: the chains
(lists of operator ids), the operators, and the `finish_chain_` flag. -/
structure Net where
  chains : List (List Nat)
  ops : List Op
  finish_chain : Bool
  deriving Repr

/-- Mutable state touched by `AsyncNetBase::run`: the per-task tail events
(`events_`) and the mutex-guarded caught-exception slot. -/
structure RunState where
  events : List Event
  caughtException : Option Exn
  deriving DecidableEq, Repr

/-- `AsyncNetBase::query` (net_async_base.cc lines 262-264): the status of
the tail event of a task. -/
def query (events : List Event) (task_id : Nat) : EventStatus :=
  (events.getD task_id default).status

/-- `AsyncNetBase::setTaskErrorMessage` (net_async_base.cc lines 365-371):
set the tail event of the task to FAILED with the message, but only when its
status is still INITIALIZED. -/
def setTaskErrorMessage (events : List Event) (task_id : Nat) (msg : String) :
    List Event :=
  if query events task_id = .INITIALIZED then
    events.set task_id ((events.getD task_id default).setFinished (some msg))
  else events

/-- Outcome of the operator loop of `AsyncNetBase::run` over one chain. -/
inductive ChainOutcome where
  | allSucceeded
  | opFailed (op_id : Nat)
  | opThrew (op_id : Nat) (e : Exn)
  deriving DecidableEq, Repr

/-- The for-loop of `AsyncNetBase::run` (net_async_base.cc lines 382-409):
run the ops of the chain in order, stopping at the first one that returns
false or throws. -/
def execChain (ops : List Op) : List Nat → ChainOutcome
  | [] => .allSucceeded
  | op_id :: rest =>
    match (ops.getD op_id default).result with
    | .succ => execChain ops rest
    | .fail => .opFailed op_id
    | .throwStd w => .opThrew op_id (.stdExn w)
    | .throwUnknown => .opThrew op_id .unknownExn

/-- `AsyncNetBase::run(task_id, stream_id)` (net_async_base.cc lines
373-436).  `waitExn` is the exception thrown by the `asyncWait` /
`WaitEvents` call of step 1, if any (that call goes to the external device
layer; it is skipped when `finish_chain_` is set).  `finishResult` is what
the blocking tail `Finish()` of the finish_chain branch does: resolve to a
terminal status, or throw — the source sets `op = nullptr` on line 411
right before that call, so a throwing `Finish()` is caught with no op
annotation, exactly like a throwing wait.  The stream id only parameterizes
external kernel launches and does not affect the modelled state.  Returns
the bool result of `run` plus the new state. -/
def run (net : Net) (waitExn : Option Exn)
    (finishResult : Except Exn EventStatus) (task_id : Nat) (st : RunState) :
    Bool × RunState :=
  match (if !net.finish_chain then waitExn else none) with
  | some e =>
    -- the wait step threw: caught with op == nullptr, no op annotation
    let slot := storeExceptionPtr st.caughtException e
    let events := setTaskErrorMessage st.events task_id (exnWhat e)
    (false, { events := events, caughtException := slot })
  | none =>
    match execChain net.ops (net.chains.getD task_id []) with
    | .allSucceeded =>
      -- op = nullptr; if finish_chain, block in the tail event Finish()
      if net.finish_chain then
        match finishResult with
        | .ok outcome =>
          let ev := (st.events.getD task_id default).finish outcome
          (true, { st with events := st.events.set task_id ev })
        | .error e =>
          -- Finish() threw: caught with op == nullptr, no op annotation
          let slot := storeExceptionPtr st.caughtException e
          let events := setTaskErrorMessage st.events task_id (exnWhat e)
          (false, { events := events, caughtException := slot })
      else (true, st)
    | .opFailed op_id =>
      let op := net.ops.getD op_id default
      let events := setTaskErrorMessage st.events task_id (opFailureMsg op)
      (false, { st with events := events })
    | .opThrew op_id e =>
      let slot := storeExceptionPtr st.caughtException e
      let op := net.ops.getD op_id default
      let events := setTaskErrorMessage st.events task_id (opExnMsg e op)
      (false, { events := events, caughtException := slot })

theorem execChain_append_succ (ops : List Op) (pre l : List Nat)
    (hpre : ∀ o ∈ pre, (ops.getD o default).result = OpResult.succ) :
    execChain ops (pre ++ l) = execChain ops l := by
  induction pre with
  | nil => rfl
  | cons a rest ih =>
      have ha : (ops.getD a default).result = OpResult.succ :=
        hpre a (List.mem_cons_self a rest)
      have hrest : ∀ o ∈ rest, (ops.getD o default).result = OpResult.succ :=
        fun o ho => hpre o (List.mem_cons_of_mem a ho)
      show execChain ops (a :: (rest ++ l)) = execChain ops l
      simp only [execChain]
      rw [ha]
      exact ih hrest

/-- C2: when the first not-succeeding operator of the chain returns false
from RunAsync, `run` returns false, leaves the exception slot alone, and
sets the tail event of the task to FAILED with the message
`"Failed to execute an op: "` followed by the op type (when a debug def is
present) or `" unknown"` — and it writes the event only when its status is
still INITIALIZED, leaving the events unchanged otherwise. -/
theorem c2_run_op_failure (net : Net) (fr : Except Exn EventStatus)
    (task_id : Nat) (st : RunState) (pre rest : List Nat) (op_id : Nat)
    (hchain : net.chains.getD task_id [] = pre ++ op_id :: rest)
    (hpre : ∀ o ∈ pre, (net.ops.getD o default).result = OpResult.succ)
    (hfail : (net.ops.getD op_id default).result = OpResult.fail) :
    (run net none fr task_id st).1 = false ∧
    (run net none fr task_id st).2.caughtException = st.caughtException ∧
    (query st.events task_id = EventStatus.INITIALIZED →
      (run net none fr task_id st).2.events =
        st.events.set task_id
          { status := EventStatus.FAILED,
            errMsg := some (opFailureMsg (net.ops.getD op_id default)) }) ∧
    (query st.events task_id ≠ EventStatus.INITIALIZED →
      (run net none fr task_id st).2.events = st.events) := by
  have hexec : execChain net.ops (net.chains.getD task_id []) =
      ChainOutcome.opFailed op_id := by
    rw [hchain, execChain_append_succ net.ops pre (op_id :: rest) hpre]
    simp only [execChain]
    rw [hfail]
  have hrun : run net none fr task_id st =
      (false,
        { st with
            events := setTaskErrorMessage st.events task_id
              (opFailureMsg (net.ops.getD op_id default)) }) := by
    unfold run
    rw [hexec]
    cases hfc : net.finish_chain <;> simp [hfc]
  refine ⟨by rw [hrun], by rw [hrun], ?_, ?_⟩
  · intro hinit
    rw [hrun]
    simp [setTaskErrorMessage, hinit, Event.setFinished]
  · intro hninit
    rw [hrun]
    simp [setTaskErrorMessage, hninit]

/-- Concrete net for the C2 witness: one chain of two ops, the second of
which returns false and has a debug def. -/
def c2Net : Net :=
  { chains := [[0, 1]],
    ops := [⟨.succ, true, "Conv"⟩, ⟨.fail, true, "Relu"⟩],
    finish_chain := false }

/-- Concrete pre-run state for the C2 witness. -/
def c2St : RunState :=
  { events := [⟨.INITIALIZED, none⟩], caughtException := none }

/-- Witness for C2 on a concrete two-op chain whose second op fails. -/
theorem c2_run_op_failure_witness :
    (run c2Net none (Except.ok EventStatus.SUCCESS) 0 c2St).1 = false ∧
    (run c2Net none (Except.ok EventStatus.SUCCESS) 0 c2St).2.caughtException =
      c2St.caughtException ∧
    (query c2St.events 0 = EventStatus.INITIALIZED →
      (run c2Net none (Except.ok EventStatus.SUCCESS) 0 c2St).2.events =
        c2St.events.set 0
          { status := EventStatus.FAILED,
            errMsg := some (opFailureMsg (c2Net.ops.getD 1 default)) }) ∧
    (query c2St.events 0 ≠ EventStatus.INITIALIZED →
      (run c2Net none (Except.ok EventStatus.SUCCESS) 0 c2St).2.events = c2St.events) :=
  c2_run_op_failure c2Net (Except.ok EventStatus.SUCCESS) 0 c2St [0] [] 1 rfl
    (by intro o ho; simp at ho; subst ho; rfl) rfl

/-- What the catch branches of `AsyncNetBase::run` leave behind when the
thrown exception is `e` and the logged message is `msg`: run returned
false, the error slot holds the old exception when there was one and `e`
otherwise (first writer wins, spelled out both as `Option.getD` and as the
two directions), and the task error message was set to `msg`. -/
def caughtOutcome (result : Bool × RunState) (st : RunState) (task_id : Nat)
    (e : Exn) (msg : String) : Prop :=
  result.1 = false ∧
  result.2.caughtException = some (st.caughtException.getD e) ∧
  (st.caughtException = none → result.2.caughtException = some e) ∧
  (∀ x : Exn, st.caughtException = some x →
    result.2.caughtException = some x) ∧
  result.2.events = setTaskErrorMessage st.events task_id msg

theorem caughtOutcome_intro (result : Bool × RunState) (st : RunState)
    (task_id : Nat) (e : Exn) (msg : String)
    (h : result = (false,
      { events := setTaskErrorMessage st.events task_id msg,
        caughtException := storeExceptionPtr st.caughtException e })) :
    caughtOutcome result st task_id e msg := by
  subst h
  refine ⟨rfl, ?_, ?_, ?_, rfl⟩
  · cases hs : st.caughtException <;> simp [storeExceptionPtr, hs]
  · intro h0; simp [storeExceptionPtr, h0]
  · intro x hx; simp [storeExceptionPtr, hx]

/-- C3: whichever step of `run` throws, `run` catches the exception rather
than propagating it, stores it in the error slot only when the slot is
still empty (first writer wins), sets the task error message, and returns
false.  Three scenarios, one per throwing step of the source try block:
an operator of the chain throws (op was executing, so the message is the
exception text annotated with the op type); the step-1 asyncWait throws
(op == nullptr, message unannotated); the step-4 tail Finish() throws
(op was reset to nullptr on line 411 first, message unannotated). -/
theorem c3_run_any_exception (net : Net) (fr : Except Exn EventStatus)
    (task_id : Nat) (st : RunState) (pre rest : List Nat) (op_id : Nat)
    (e : Exn)
    (hchain : net.chains.getD task_id [] = pre ++ op_id :: rest)
    (hpre : ∀ o ∈ pre, (net.ops.getD o default).result = OpResult.succ)
    (hthrow : (net.ops.getD op_id default).result.thrownExn = some e)
    (netW : Net) (frW : Except Exn EventStatus) (taskW : Nat)
    (stW : RunState) (eW : Exn) (hfcW : netW.finish_chain = false)
    (netF : Net) (taskF : Nat) (stF : RunState) (eF : Exn)
    (hfcF : netF.finish_chain = true)
    (hallok : execChain netF.ops (netF.chains.getD taskF []) =
      ChainOutcome.allSucceeded) :
    caughtOutcome (run net none fr task_id st) st task_id e
      (opExnMsg e (net.ops.getD op_id default)) ∧
    caughtOutcome (run netW (some eW) frW taskW stW) stW taskW eW
      (exnWhat eW) ∧
    caughtOutcome (run netF none (Except.error eF) taskF stF) stF taskF eF
      (exnWhat eF) := by
  refine ⟨?_, ?_, ?_⟩
  · -- an operator throws
    have hexec : execChain net.ops (net.chains.getD task_id []) =
        ChainOutcome.opThrew op_id e := by
      rw [hchain, execChain_append_succ net.ops pre (op_id :: rest) hpre]
      cases hres : (net.ops.getD op_id default).result <;>
        simp_all [execChain, OpResult.thrownExn]
    apply caughtOutcome_intro
    unfold run
    rw [hexec]
    cases hfc : net.finish_chain <;> simp [hfc]
  · -- the step-1 asyncWait throws (skipped when finish_chain is set)
    apply caughtOutcome_intro
    unfold run
    rw [hfcW]
    rfl
  · -- all ops succeeded, the step-4 tail Finish() throws
    apply caughtOutcome_intro
    unfold run
    rw [hallok, hfcF]
    rfl

/-- Concrete net for the C3 witness, operator-throw scenario: one chain of
two ops, the second of which throws a std::exception; the slot already
holds an exception, so the first writer wins. -/
def c3Net : Net :=
  { chains := [[0, 1]],
    ops := [⟨.succ, true, "Conv"⟩, ⟨.throwStd "bad alloc", false, "Relu"⟩],
    finish_chain := false }

/-- Concrete pre-run state for the C3 witness, with a non-empty error slot. -/
def c3St : RunState :=
  { events := [⟨.INITIALIZED, none⟩],
    caughtException := some (.stdExn "earlier") }

/-- Concrete net for the C3 witness, Finish-throw scenario: a single
succeeding op with finish_chain set. -/
def c3NetF : Net :=
  { chains := [[0]],
    ops := [⟨.succ, true, "Conv"⟩],
    finish_chain := true }

/-- Concrete pre-run state for the C3 witness with an empty error slot. -/
def c3StF : RunState :=
  { events := [⟨.INITIALIZED, none⟩], caughtException := none }

/-- Witness for C3 exercising all three scenarios: op 1 of c3Net throws
while the slot is occupied; the asyncWait of c2Net (finish_chain off)
throws the catch-all exception; the tail Finish() of c3NetF (finish_chain
on, all ops succeeded) throws into an empty slot. -/
theorem c3_run_any_exception_witness :
    caughtOutcome (run c3Net none (Except.ok EventStatus.SUCCESS) 0 c3St)
      c3St 0 (Exn.stdExn "bad alloc")
      (opExnMsg (Exn.stdExn "bad alloc") (c3Net.ops.getD 1 default)) ∧
    caughtOutcome
      (run c2Net (some Exn.unknownExn) (Except.ok EventStatus.SUCCESS) 0 c2St)
      c2St 0 Exn.unknownExn (exnWhat Exn.unknownExn) ∧
    caughtOutcome
      (run c3NetF none (Except.error (Exn.stdExn "finish fail")) 0 c3StF)
      c3StF 0 (Exn.stdExn "finish fail") (exnWhat (Exn.stdExn "finish fail")) :=
  c3_run_any_exception c3Net (Except.ok EventStatus.SUCCESS) 0 c3St [0] [] 1
    (Exn.stdExn "bad alloc") rfl
    (by intro o ho; simp at ho; subst ho; rfl) rfl
    c2Net (Except.ok EventStatus.SUCCESS) 0 c2St Exn.unknownExn rfl
    c3NetF 0 c3StF (Exn.stdExn "finish fail") rfl rfl

/-- Modelled from the spec: device-type tag for CPU (the proto enum is not
under src/; only the distinctness of the tags matters here). -/
def PROTO_CPU : Nat := 0

/-- Modelled from the spec: device-type tag for the CUDA accelerator. -/
def PROTO_CUDA : Nat := 1

/-- Modelled from the spec: device-type tag for the MKLDNN CPU variant. -/
def PROTO_MKLDNN : Nat := 2

/-- Modelled from the spec: device-type tag for the IDEEP CPU variant. -/
def PROTO_IDEEP : Nat := 5

/-- Modelled from the spec: device-type tag for the test-only device. -/
def PROTO_ONLY_FOR_TEST : Nat := 20037

/-- The fields of a DeviceOption consulted by `AsyncNetBase::pool` and
`AsyncNetBase::stream`: the device type, and the optional device id. -/
structure DeviceOption where
  device_type : Nat
  has_device_id : Bool
  device_id : Int
  deriving DecidableEq, Repr

/-- The do-while loop of `AsyncNetBase::stream` (net_async_base.cc lines
193-196).  Each body execution reads `stream_id` from the counter and then
advances the counter to `(counter + 1) % streams_per_gpu`; the loop repeats
while `check_stream_status_` is on and `isStreamFree(task_id, stream_id)` is
false.  `fuel` bounds how many body executions we unfold; `none` means the
loop is still spinning after `fuel` attempts (the source loop itself has no
bound). -/
def streamLoop (free : Nat → Bool) (spg : Nat) (check : Bool) :
    Nat → Nat → Option (Nat × Nat)
  | 0, _ => none
  | fuel + 1, counter =>
    if check && !(free counter) then
      streamLoop free spg check fuel ((counter + 1) % spg)
    else some (counter, (counter + 1) % spg)

/-- The thread-local counter resize of `AsyncNetBase::stream`
(net_async_base.cc lines 190-192): grow the per-GPU counter vector to cover
`gpu_id`, initializing new entries to zero. -/
def growCounters (counters : List Nat) (gpu_id : Nat) : List Nat :=
  if counters.length ≤ gpu_id then
    counters ++ List.replicate (gpu_id + 1 - counters.length) 0
  else counters

/-- `AsyncNetBase::stream` (net_async_base.cc lines 184-199).  `free` is
`isStreamFree(task_id, ·)` on the tail op of the chain; `counters` is the
thread-local per-GPU counter vector; `fuel` bounds the unfolded do-while
iterations.  `none` models either the CAFFE_ENFORCE throw on a negative gpu
id or a loop that is still spinning after `fuel` attempts.  For non-CUDA
devices the stream id is 0 and the counters are untouched. -/
def stream (dev : DeviceOption) (spg : Nat) (check : Bool) (free : Nat → Bool)
    (fuel : Nat) (counters : List Nat) : Option (Nat × List Nat) :=
  if dev.device_type = PROTO_CUDA then
    if dev.device_id < 0 then none
    else
      let g := dev.device_id.toNat
      let cs := growCounters counters g
      (streamLoop free spg check fuel (cs.getD g 0)).map
        (fun r => (r.1, cs.set g r.2))
  else some (0, counters)

/-- Device option used by the C4 counterexample: an accelerator task on
GPU 0. -/
def c4Dev : DeviceOption :=
  { device_type := PROTO_CUDA, has_device_id := true, device_id := 0 }

/-- C4 counterexample: with check_stream_status on, streams_per_gpu = 2 and
a stream-free predicate that never returns true, the stream-selection loop
has not accepted any stream after streams_per_gpu = 2 attempts — nor after
64 — so the search is not capped at streams_per_gpu attempts and
stream(task_id) does not terminate. -/
theorem c4_stream_uncapped_counterexample :
    streamLoop (fun _ => false) 2 true 2 0 = none ∧
    streamLoop (fun _ => false) 2 true 64 0 = none ∧
    stream c4Dev 2 true (fun _ => false) 2 [] = none ∧
    stream c4Dev 2 true (fun _ => false) 64 [] = none := by
  refine ⟨by decide, by decide, by decide, by decide⟩

theorem streamLoop_reaches (free : Nat → Bool) (spg : Nat) :
    ∀ (fuel c k : Nat), c < spg → k < fuel → free ((c + k) % spg) = true →
      (streamLoop free spg true fuel c).isSome = true := by
  intro fuel
  induction fuel with
  | zero => intro c k _ hk _; exact absurd hk (Nat.not_lt_zero k)
  | succ fuel ih =>
      intro c k hc hk hfree
      by_cases hf : free c = true
      · simp [streamLoop, hf]
      · have hfc : free c = false := by simpa using hf
        cases k with
        | zero =>
            have hmod : (c + 0) % spg = c := by
              rw [Nat.add_zero, Nat.mod_eq_of_lt hc]
            rw [hmod, hfc] at hfree
            exact absurd hfree (by simp)
        | succ k' =>
            have hspg : 0 < spg := by omega
            have hc' : (c + 1) % spg < spg := Nat.mod_lt _ hspg
            have hfree' : free (((c + 1) % spg + k') % spg) = true := by
              rw [Nat.mod_add_mod]
              have harith : c + 1 + k' = c + (k' + 1) := by omega
              rw [harith]
              exact hfree
            have hrec := ih ((c + 1) % spg) k' hc' (by omega) hfree'
            simp only [streamLoop, hfc]
            simpa using hrec

theorem streamLoop_bounds (free : Nat → Bool) (spg : Nat) (check : Bool) :
    ∀ (fuel c : Nat), c < spg → ∀ r, streamLoop free spg check fuel c = some r →
      r.1 < spg ∧ r.2 < spg := by
  intro fuel
  induction fuel with
  | zero => intro c _ r h; exact absurd h (by simp [streamLoop])
  | succ fuel ih =>
      intro c hc r h
      have hspg : 0 < spg := by omega
      simp only [streamLoop] at h
      by_cases hcond : (check && !(free c)) = true
      · rw [if_pos hcond] at h
        exact ih ((c + 1) % spg) (Nat.mod_lt _ hspg) r h
      · rw [if_neg hcond] at h
        injection h with h2
        subst h2
        exact ⟨hc, Nat.mod_lt _ hspg⟩

theorem exists_counter_offset (c s spg : Nat) (hc : c < spg) (hs : s < spg) :
    ∃ k, k < spg ∧ (c + k) % spg = s := by
  by_cases h : c ≤ s
  · exact ⟨s - c, by omega, by rw [Nat.add_sub_cancel' h, Nat.mod_eq_of_lt hs]⟩
  · refine ⟨spg - c + s, by omega, ?_⟩
    have harith : c + (spg - c + s) = spg + s := by omega
    rw [harith, Nat.add_mod_left, Nat.mod_eq_of_lt hs]

/-- C4 amended: with check_stream_status on, the search is capped at
streams_per_gpu body executions provided some stream in
[0, streams_per_gpu) is free — the counter round-robins through every
residue, so it lands on a free stream within streams_per_gpu attempts — and
whatever stream it accepts is below streams_per_gpu.  When no stream is
ever free the loop does not exit (see the counterexample): the source
applies the modulo to the counter, not to the number of attempts. -/
theorem c4_stream_search_capped (free : Nat → Bool) (spg c s : Nat)
    (hc : c < spg) (hs : s < spg) (hfree : free s = true) :
    (streamLoop free spg true spg c).isSome = true ∧
    ∀ r, streamLoop free spg true spg c = some r → r.1 < spg := by
  obtain ⟨k, hk, hcs⟩ := exists_counter_offset c s spg hc hs
  constructor
  · exact streamLoop_reaches free spg spg c k hc hk (by rw [hcs]; exact hfree)
  · intro r hr
    exact (streamLoop_bounds free spg true spg c hc r hr).1

/-- Witness for the amended C4: streams_per_gpu = 2, the counter starts at
0 and only stream 1 is free. -/
theorem c4_stream_search_capped_witness :
    ((0 : Nat) < 2 ∧ (1 : Nat) < 2 ∧ (fun n : Nat => n == 1) 1 = true) ∧
    ((streamLoop (fun n : Nat => n == 1) 2 true 2 0).isSome = true ∧
     ∀ r, streamLoop (fun n : Nat => n == 1) 2 true 2 0 = some r →
       r.1 < 2) :=
  ⟨⟨by decide, by decide, by decide⟩,
    c4_stream_search_capped (fun n => n == 1) 2 0 1 (by decide) (by decide)
      (by decide)⟩

theorem growCounters_getD (counters : List Nat) (g : Nat) :
    (growCounters counters g).getD g 0 = counters.getD g 0 := by
  unfold growCounters
  by_cases h : counters.length ≤ g
  · rw [if_pos h]
    rw [List.getD_eq_getElem?_getD, List.getD_eq_getElem?_getD]
    rw [List.getElem?_append_right h]
    have hlen : g - counters.length < g + 1 - counters.length := by omega
    rw [List.getElem?_replicate, if_pos hlen]
    rw [List.getElem?_eq_none (by omega)]
    rfl
  · rw [if_neg h]

/-- C8: for an accelerator (CUDA) task with check_stream_status off, the
stream call reads the thread-local counter of the gpu, returns it as the
stream id, and stores back (counter + 1) % streams_per_gpu — successive
calls from one thread therefore round-robin through the streams — and the
returned id is below streams_per_gpu whenever the stored counter is (the
update keeps that invariant).  For a task on any non-CUDA device the call
returns stream id 0 and leaves the counters alone. -/
theorem c8_stream_round_robin (dev devC : DeviceOption) (spg fuel : Nat)
    (free : Nat → Bool) (counters countersC : List Nat)
    (hdev : dev.device_type = PROTO_CUDA) (hid : 0 ≤ dev.device_id)
    (hcnt : counters.getD dev.device_id.toNat 0 < spg) (hfuel : 1 ≤ fuel)
    (hdevC : devC.device_type ≠ PROTO_CUDA) :
    (stream dev spg false free fuel counters =
      some (counters.getD dev.device_id.toNat 0,
        (growCounters counters dev.device_id.toNat).set dev.device_id.toNat
          ((counters.getD dev.device_id.toNat 0 + 1) % spg)) ∧
      counters.getD dev.device_id.toNat 0 < spg) ∧
    stream devC spg false free fuel countersC = some (0, countersC) := by
  obtain ⟨f, rfl⟩ : ∃ f, fuel = f + 1 := ⟨fuel - 1, by omega⟩
  refine ⟨⟨?_, hcnt⟩, ?_⟩
  · unfold stream
    rw [if_pos hdev, if_neg (by omega)]
    show Option.map _ (streamLoop free spg false (f + 1)
      ((growCounters counters dev.device_id.toNat).getD dev.device_id.toNat 0)) = _
    rw [growCounters_getD counters dev.device_id.toNat]
    simp [streamLoop]
  · unfold stream
    rw [if_neg hdevC]

/-- Counters for the C8 witness. -/
def c8Counters : List Nat := [1]

/-- CPU device for the C8 witness. -/
def c8DevCpu : DeviceOption :=
  { device_type := PROTO_CPU, has_device_id := false, device_id := 0 }

/-- Witness for C8: GPU 0 with its counter at 1 and streams_per_gpu = 2,
plus a CPU task. -/
theorem c8_stream_round_robin_witness :
    ((stream c4Dev 2 false (fun _ => true) 1 c8Counters =
      some (c8Counters.getD c4Dev.device_id.toNat 0,
        (growCounters c8Counters c4Dev.device_id.toNat).set
          c4Dev.device_id.toNat
          ((c8Counters.getD c4Dev.device_id.toNat 0 + 1) % 2)) ∧
      c8Counters.getD c4Dev.device_id.toNat 0 < 2) ∧
    stream c8DevCpu 2 false (fun _ => true) 1 [] = some (0, [])) :=
  c8_stream_round_robin c4Dev c8DevCpu 2 1 (fun _ => true) c8Counters []
    rfl (by decide) (by decide) (by decide) (by decide)

/-- The parts of the engine consulted by the two `canSchedule` overloads:
the chains, the per-task parent lists (`chain_nodes_`), and per-op event
type / async-scheduling support (`event().GetType()` and
`SupportsAsyncScheduling()`). -/
structure TaskGraph where
  chains : List (List Nat)
  parentsOf : List (List Nat)
  opEventType : Nat → Nat
  opSupportsAsync : Nat → Bool

/-- The pairwise `AsyncNetBase::canSchedule(parent_id, child_id)`
(net_async_base.cc lines 241-250): consult `Event::CanSchedule` (passed in
as `table`, since the Event class is not under src/) on the tail event of
the parent chain and the head op of the child chain; `statuses` gives the
live `Query()` result of each task tail event. -/
def canSchedulePair (g : TaskGraph) (table : Nat → EventStatus → Nat → Bool → Bool)
    (statuses : Nat → EventStatus) (parent_id child_id : Nat) : Bool :=
  table (g.opEventType ((g.chains.getD parent_id []).getLastD 0))
    (statuses parent_id)
    (g.opEventType ((g.chains.getD child_id []).headD 0))
    (g.opSupportsAsync ((g.chains.getD child_id []).headD 0))

/-- The parent loop of the batch `AsyncNetBase::canSchedule(task_id, status,
parent_failed)` (net_async_base.cc lines 212-236), with `status == nullptr`
so every parent status is the live `Query()` result: a FAILED parent sets
the out-parameter and returns false before the table is consulted; a parent
the table rejects returns false without touching the out-parameter.  The
second component models the `parent_failed` out-parameter (false = never
written). -/
def canScheduleBatchGo (g : TaskGraph)
    (table : Nat → EventStatus → Nat → Bool → Bool)
    (statuses : Nat → EventStatus) (task_id : Nat) : List Nat → Bool × Bool
  | [] => (true, false)
  | parent_id :: rest =>
    if statuses parent_id = EventStatus.FAILED then (false, true)
    else if table (g.opEventType ((g.chains.getD parent_id []).getLastD 0))
        (statuses parent_id)
        (g.opEventType ((g.chains.getD task_id []).headD 0))
        (g.opSupportsAsync ((g.chains.getD task_id []).headD 0)) then
      canScheduleBatchGo g table statuses task_id rest
    else (false, false)

/-- The batch `AsyncNetBase::canSchedule(task_id, nullptr, parent_failed)`
(net_async_base.cc lines 207-239): iterate over the parents of the task. -/
def canSchedule (g : TaskGraph) (table : Nat → EventStatus → Nat → Bool → Bool)
    (statuses : Nat → EventStatus) (task_id : Nat) : Bool × Bool :=
  canScheduleBatchGo g table statuses task_id (g.parentsOf.getD task_id [])

/-- Modelled from the spec: the `Event::CanSchedule` policy table (the Event
class is not under src/): terminal parents schedule non-failed children,
FAILED parents poison, SCHEDULED parents permit an early start only for an
async-capable child of the same device family, INITIALIZED parents never
schedule. -/
def specCanSchedule (parent_type : Nat) (parent_status : EventStatus)
    (child_type : Nat) (child_async : Bool) : Bool :=
  match parent_status with
  | .SUCCESS => true
  | .FAILED => false
  | .SCHEDULED => parent_type == child_type && child_async
  | .INITIALIZED => false

/-- Task graph for the C5 counterexample: task 2 has parents 0 and 1. -/
def c5Graph : TaskGraph :=
  { chains := [[0], [1], [2]],
    parentsOf := [[], [], [0, 1]],
    opEventType := fun _ => PROTO_CPU,
    opSupportsAsync := fun _ => false }

/-- Statuses for the C5 counterexample: parent 0 never ran, parent 1
failed. -/
def c5Statuses : Nat → EventStatus
  | 1 => .FAILED
  | _ => .INITIALIZED

/-- C5 counterexample: the batch check walks the parents in order and
returns false at parent 0 (INITIALIZED, rejected by the table) before ever
looking at parent 1, so the parent_failed out-parameter is left unwritten
even though parent 1 is FAILED. -/
theorem c5_parent_failed_flag_counterexample :
    (canSchedule c5Graph specCanSchedule c5Statuses 2).1 = false ∧
    (canSchedule c5Graph specCanSchedule c5Statuses 2).2 = false ∧
    1 ∈ c5Graph.parentsOf.getD 2 [] ∧
    c5Statuses 1 = EventStatus.FAILED :=
  ⟨rfl, rfl, by decide, rfl⟩

theorem canScheduleBatchGo_spec (g : TaskGraph)
    (table : Nat → EventStatus → Nat → Bool → Bool)
    (statuses : Nat → EventStatus) (task_id : Nat)
    (htable : ∀ pt ct ca, table pt EventStatus.FAILED ct ca = false) :
    ∀ l : List Nat,
      ((canScheduleBatchGo g table statuses task_id l).1 = true ↔
        ∀ p ∈ l, canSchedulePair g table statuses p task_id = true) ∧
      ((canScheduleBatchGo g table statuses task_id l).2 = true →
        ∃ p ∈ l, statuses p = EventStatus.FAILED) := by
  intro l
  induction l with
  | nil =>
      constructor
      · simp [canScheduleBatchGo]
      · intro h; exact absurd h (by simp [canScheduleBatchGo])
  | cons p rest ih =>
      have hpair : canSchedulePair g table statuses p task_id =
          table (g.opEventType ((g.chains.getD p []).getLastD 0))
            (statuses p)
            (g.opEventType ((g.chains.getD task_id []).headD 0))
            (g.opSupportsAsync ((g.chains.getD task_id []).headD 0)) := rfl
      by_cases hp : statuses p = EventStatus.FAILED
      · have hpairf : canSchedulePair g table statuses p task_id = false := by
          rw [hpair, hp, htable]
        have hgo : canScheduleBatchGo g table statuses task_id (p :: rest) =
            (false, true) := by
          simp only [canScheduleBatchGo, if_pos hp]
        constructor
        · rw [hgo]
          constructor
          · intro h; exact absurd h (by simp)
          · intro hall
            have hcontra := hall p (List.mem_cons_self p rest)
            rw [hcontra] at hpairf
            exact absurd hpairf (by simp)
        · intro _
          exact ⟨p, List.mem_cons_self p rest, hp⟩
      · cases hcond : canSchedulePair g table statuses p task_id with
        | true =>
            have hgo : canScheduleBatchGo g table statuses task_id (p :: rest) =
                canScheduleBatchGo g table statuses task_id rest := by
              simp only [canScheduleBatchGo, if_neg hp]
              rw [← hpair, if_pos hcond]
            constructor
            · rw [hgo, ih.1]
              constructor
              · intro hall q hq
                rcases List.mem_cons.mp hq with rfl | hq2
                · exact hcond
                · exact hall q hq2
              · intro hall q hq
                exact hall q (List.mem_cons_of_mem p hq)
            · intro h2
              rw [hgo] at h2
              obtain ⟨q, hq, hqf⟩ := ih.2 h2
              exact ⟨q, List.mem_cons_of_mem p hq, hqf⟩
        | false =>
            have hnc : ¬(table (g.opEventType ((g.chains.getD p []).getLastD 0))
                (statuses p)
                (g.opEventType ((g.chains.getD task_id []).headD 0))
                (g.opSupportsAsync ((g.chains.getD task_id []).headD 0)) = true) := by
              rw [← hpair, hcond]
              simp
            have hgo : canScheduleBatchGo g table statuses task_id (p :: rest) =
                (false, false) := by
              simp only [canScheduleBatchGo, if_neg hp]
              rw [if_neg hnc]
            constructor
            · rw [hgo]
              constructor
              · intro h; exact absurd h (by simp)
              · intro hall
                have hcontra := hall p (List.mem_cons_self p rest)
                rw [hcontra] at hcond
                exact absurd hcond (by simp)
            · rw [hgo]
              intro h; exact absurd h (by simp)

/-- C5 amended: over the live parent statuses and any policy table that
rejects FAILED parents, the batch check accepts exactly when the pairwise
check accepts every parent of the task (both consult the same table on the
same tail-event type, status and head-op data); and whenever the batch
check has written the parent_failed out-parameter, some parent is FAILED.
(The converse of the last part fails: see the counterexample, where a
non-schedulable earlier parent hides a FAILED later parent.) -/
theorem c5_canSchedule_batch_pairwise (g : TaskGraph)
    (table : Nat → EventStatus → Nat → Bool → Bool)
    (statuses : Nat → EventStatus) (task_id : Nat)
    (htable : ∀ pt ct ca, table pt EventStatus.FAILED ct ca = false) :
    ((canSchedule g table statuses task_id).1 = true ↔
      ∀ p ∈ g.parentsOf.getD task_id [],
        canSchedulePair g table statuses p task_id = true) ∧
    ((canSchedule g table statuses task_id).2 = true →
      ∃ p ∈ g.parentsOf.getD task_id [], statuses p = EventStatus.FAILED) :=
  canScheduleBatchGo_spec g table statuses task_id htable
    (g.parentsOf.getD task_id [])

/-- Statuses for the C5 witness: every parent succeeded. -/
def c5WStatuses : Nat → EventStatus := fun _ => EventStatus.SUCCESS

/-- Witness for the amended C5 on the concrete three-task graph with both
parents SUCCESS. -/
theorem c5_canSchedule_batch_pairwise_witness :
    (∀ pt ct ca, specCanSchedule pt EventStatus.FAILED ct ca = false) ∧
    (((canSchedule c5Graph specCanSchedule c5WStatuses 2).1 = true ↔
      ∀ p ∈ c5Graph.parentsOf.getD 2 [],
        canSchedulePair c5Graph specCanSchedule c5WStatuses p 2 = true) ∧
    ((canSchedule c5Graph specCanSchedule c5WStatuses 2).2 = true →
      ∃ p ∈ c5Graph.parentsOf.getD 2 [],
        c5WStatuses p = EventStatus.FAILED)) :=
  ⟨fun _ _ _ => rfl,
    c5_canSchedule_batch_pairwise c5Graph specCanSchedule c5WStatuses 2
      (fun _ _ _ => rfl)⟩

/-- `AsyncNetBase::updateParentCount(child_id)` (net_async_base.cc lines
282-288): atomically decrement the runtime parent counter stored on the
first op node of the child chain (`--child_node.runtime_parent_count_`) and
return the new value; `CAFFE_ENFORCE_GE(parent_count, 0)` aborts loudly
(`none`) when the new value is negative.  `counts` is the per-op-node
counter vector. -/
def updateParentCount (chains : List (List Nat)) (counts : List Int)
    (child_id : Nat) : Option (Int × List Int) :=
  let child_node := (chains.getD child_id []).headD 0
  let parent_count := counts.getD child_node 0 - 1
  if 0 ≤ parent_count then
    some (parent_count, counts.set child_node parent_count)
  else none

/-- C6: decrementing a positive runtime parent counter never trips the
non-negativity enforcement and returns exactly the old count minus one
(storing it back on the first op node of the child chain); decrementing a
counter that is already zero fails loudly. -/
theorem c6_updateParentCount (chains : List (List Nat))
    (counts counts0 : List Int) (child_id child0 : Nat)
    (hpos : 0 < counts.getD ((chains.getD child_id []).headD 0) 0)
    (hzero : counts0.getD ((chains.getD child0 []).headD 0) 0 = 0) :
    updateParentCount chains counts child_id =
      some (counts.getD ((chains.getD child_id []).headD 0) 0 - 1,
        counts.set ((chains.getD child_id []).headD 0)
          (counts.getD ((chains.getD child_id []).headD 0) 0 - 1)) ∧
    updateParentCount chains counts0 child0 = none := by
  constructor
  · simp only [updateParentCount]
    rw [if_pos (by omega)]
  · simp only [updateParentCount]
    rw [if_neg (by omega)]

/-- Counter vectors for the C6 witness. -/
def c6Counts : List Int := [2]

/-- Zero counter vector for the C6 witness. -/
def c6CountsZero : List Int := [0]

/-- Witness for C6 on a one-chain net with the counter at 2, and at 0. -/
theorem c6_updateParentCount_witness :
    ((0 : Int) < c6Counts.getD ((([[0]] : List (List Nat)).getD 0 []).headD 0) 0 ∧
     c6CountsZero.getD ((([[0]] : List (List Nat)).getD 0 []).headD 0) 0 = 0) ∧
    (updateParentCount [[0]] c6Counts 0 =
      some (c6Counts.getD ((([[0]] : List (List Nat)).getD 0 []).headD 0) 0 - 1,
        c6Counts.set ((([[0]] : List (List Nat)).getD 0 []).headD 0)
          (c6Counts.getD ((([[0]] : List (List Nat)).getD 0 []).headD 0) 0 - 1)) ∧
     updateParentCount [[0]] c6CountsZero 0 = none) :=
  ⟨⟨by decide, by decide⟩,
    c6_updateParentCount [[0]] c6Counts c6CountsZero 0 0 (by decide) (by decide)⟩

/-- The event-disabling loop body for one chain in the AsyncNetBase
constructor (net_async_base.cc lines 98-107): unless profiling
(`report_stats_`) is active, disable the event of every op of the chain
whose id is neither the chain back nor the chain front (those two are
skipped by the `continue`). -/
def chainDisabledOps (report_stats : Bool) (chain : List Nat) : List Nat :=
  if !report_stats then
    chain.filter fun op_id =>
      !(op_id == chain.getLastD 0 || op_id == chain.headD 0)
  else []

/-- All ops whose events the constructor loop over chains disables. -/
def constructorDisabledOps (chains : List (List Nat)) (report_stats : Bool) :
    List Nat :=
  chains.flatMap (chainDisabledOps report_stats)

/-- C7 counterexample: for the single chain A,B,C = 0,1,2 without
profiling, only the middle op 1 (= B) has its event disabled; the tail op 2
(= C) keeps its event — it is the chain completion event — and so does the
head op 0 (= A).  So neither "every non-head operator is disabled" nor "B
and C events disabled" holds. -/
theorem c7_tail_event_not_disabled_counterexample :
    constructorDisabledOps [[0, 1, 2]] false = [1] ∧
    (2 : Nat) ∉ constructorDisabledOps [[0, 1, 2]] false ∧
    (0 : Nat) ∉ constructorDisabledOps [[0, 1, 2]] false :=
  ⟨by decide, by decide, by decide⟩

theorem constructorDisabledOps_profiling (chains : List (List Nat)) :
    constructorDisabledOps chains true = [] := by
  induction chains with
  | nil => rfl
  | cons c rest ih =>
      show chainDisabledOps true c ++ constructorDisabledOps rest true = []
      rw [ih]
      rfl

/-- C7 amended: at engine construction, when profiling is off, exactly the
operators that are neither the back nor the front of their chain have their
events disabled — the head and, in particular, the tail event (the chain
completion event) remain in use; with profiling on, no event is disabled. -/
theorem c7_disabled_iff (chains : List (List Nat)) (op : Nat) :
    (op ∈ constructorDisabledOps chains false ↔
      ∃ chain ∈ chains, op ∈ chain ∧
        op ≠ chain.getLastD 0 ∧ op ≠ chain.headD 0) ∧
    constructorDisabledOps chains true = [] := by
  constructor
  · simp [constructorDisabledOps, chainDisabledOps, List.mem_flatMap,
      List.mem_filter, not_or, and_assoc]
  · exact constructorDisabledOps_profiling chains

/-- The set of CPU-family device types (net_async_base.cc lines 153-158). -/
def cpu_types : List Nat :=
  [PROTO_CPU, PROTO_MKLDNN, PROTO_IDEEP, PROTO_ONLY_FOR_TEST]

/-- Failure exits of `AsyncNetBase::pool`: the NUMA-id enforcements, the
GPU-id enforcement, and the unsupported-device CAFFE_THROW. -/
inductive PoolError where
  | invalidNumaNode
  | invalidGpuId
  | unsupportedDevice
  deriving DecidableEq, Repr

/-- The key `poolGetter` is called with: device type, device (or NUMA) id
and pool size.  The lazy creation and caching in the pools map is external
shared state keyed exactly by this data. -/
structure PoolRef where
  device_type : Nat
  device_id : Int
  pool_size : Int
  deriving DecidableEq, Repr

/-- `AsyncNetBase::pool(device_option)` (net_async_base.cc lines 149-182):
with use_single_pool return the single CPU pool with id -1; CPU-family
types go to a CPU pool keyed by NUMA node id (-1 when unspecified, enforced
in [0, max_numa_nodes) otherwise); CUDA goes to a GPU pool keyed by a
device id enforced in [0, max_gpus); everything else throws unsupported. -/
def pool (use_single_pool : Bool) (num_workers : Int)
    (max_numa_nodes max_gpus : Int) (dev : DeviceOption) :
    Except PoolError PoolRef :=
  if use_single_pool then
    .ok { device_type := PROTO_CPU, device_id := -1, pool_size := num_workers }
  else if dev.device_type ∈ cpu_types then
    if dev.has_device_id ∧ dev.device_id < 0 then .error .invalidNumaNode
    else
      let numa_node_id : Int := if dev.has_device_id then dev.device_id else -1
      if numa_node_id < max_numa_nodes then
        .ok { device_type := PROTO_CPU, device_id := numa_node_id,
              pool_size := num_workers }
      else .error .invalidNumaNode
  else if dev.device_type = PROTO_CUDA then
    if 0 ≤ dev.device_id ∧ dev.device_id < max_gpus then
      .ok { device_type := PROTO_CUDA, device_id := dev.device_id,
            pool_size := num_workers }
    else .error .invalidGpuId
  else .error .unsupportedDevice

/-- A device option whose type is neither CPU-family nor CUDA. -/
def c9DevUnknown : DeviceOption :=
  { device_type := 99, has_device_id := false, device_id := 0 }

/-- C9 counterexample: with use_single_pool set, pool() returns the single
CPU pool for a device type that is neither CPU-family nor CUDA instead of
failing with the unsupported-device error. -/
theorem c9_single_pool_counterexample :
    pool true 4 8 16 c9DevUnknown =
      Except.ok { device_type := PROTO_CPU, device_id := -1, pool_size := 4 } ∧
    c9DevUnknown.device_type ∉ cpu_types ∧
    c9DevUnknown.device_type ≠ PROTO_CUDA :=
  ⟨rfl, by decide, by decide⟩

/-- C9 amended: when use_single_pool is not set, every device option whose
type is neither in the CPU family nor CUDA makes pool() fail with the
unsupported-device error; when use_single_pool is set, pool()
unconditionally returns the single CPU pool with id -1 and size
num_workers. -/
theorem c9_pool_unsupported_device (num_workers max_numa_nodes max_gpus : Int)
    (dev : DeviceOption) (hcpu : dev.device_type ∉ cpu_types)
    (hcuda : dev.device_type ≠ PROTO_CUDA) :
    pool false num_workers max_numa_nodes max_gpus dev =
      Except.error PoolError.unsupportedDevice ∧
    ∀ devAny : DeviceOption, pool true num_workers max_numa_nodes max_gpus devAny =
      Except.ok { device_type := PROTO_CPU, device_id := -1,
                  pool_size := num_workers } := by
  constructor
  · unfold pool
    rw [if_neg (by simp), if_neg hcpu, if_neg hcuda]
  · intro devAny
    unfold pool
    rw [if_pos rfl]

/-- Witness for the amended C9 on the concrete unknown device type 99. -/
theorem c9_pool_unsupported_device_witness :
    (c9DevUnknown.device_type ∉ cpu_types ∧
     c9DevUnknown.device_type ≠ PROTO_CUDA) ∧
    (pool false 4 8 16 c9DevUnknown =
      Except.error PoolError.unsupportedDevice ∧
    ∀ devAny : DeviceOption, pool true 4 8 16 devAny =
      Except.ok { device_type := PROTO_CPU, device_id := -1,
                  pool_size := 4 }) :=
  ⟨⟨by decide, by decide⟩,
    c9_pool_unsupported_device 4 8 16 c9DevUnknown (by decide) (by decide)⟩

/-- Modelled from the spec: `ResetEvent` returns an event to INITIALIZED
(the Event class is not under src/). -/
def Event.resetEvent (_ : Event) : Event :=
  { status := .INITIALIZED, errMsg := none }

/-- The whole mutable engine state touched by reset and handleRunError:
per-op events, per-op-node runtime parent counters and scheduled flags, the
success flag and the caught-exception slot. -/
structure EngineState where
  opEvents : List Event
  parentCounts : List Int
  scheduledFlags : List Bool
  success : Bool
  caughtException : Option Exn
  deriving DecidableEq, Repr

/-- Body of the per-task loop of `AsyncNetBase::reset` (net_async_base.cc
lines 342-347): on the first op node of the task chain, set the runtime
parent count to the number of parents of the task and clear the scheduled
flag. -/
def resetTaskNode (chains parentsOf : List (List Nat))
    (st : List Int × List Bool) (task_id : Nat) : List Int × List Bool :=
  let node := (chains.getD task_id []).headD 0
  (st.1.set node ((parentsOf.getD task_id []).length : Int),
    st.2.set node false)

/-- `AsyncNetBase::reset` (net_async_base.cc lines 338-354): reset every op
event, re-arm every task's parent counter and scheduled flag, set the
success flag, clear the caught-exception slot under the mutex.  `RunAsync`
invokes this at the start of every run before `DoRunAsync`. -/
def reset (chains parentsOf : List (List Nat)) (st : EngineState) :
    EngineState :=
  let cs := (List.range chains.length).foldl (resetTaskNode chains parentsOf)
    (st.parentCounts, st.scheduledFlags)
  { opEvents := st.opEvents.map Event.resetEvent,
    parentCounts := cs.1,
    scheduledFlags := cs.2,
    success := true,
    caughtException := none }

/-- `AsyncNetBase::handleRunError` (net_async_base.cc lines 118-126):
re-raise the captured exception when the slot holds one — without touching
the slot — otherwise return the success flag. -/
def handleRunError (st : EngineState) : Except Exn Bool × EngineState :=
  match st.caughtException with
  | some e => (.error e, st)
  | none => (.ok st.success, st)

/-- C10: handleRunError re-raises the captured exception and leaves the
whole state — in particular the error slot — untouched, so a second call
re-raises the very same exception; the slot and the success flag are
cleared (to none and true) by reset, which RunAsync performs at the start
of the next run. -/
theorem c10_handleRunError_not_consuming (st : EngineState) (e : Exn)
    (chains parentsOf : List (List Nat))
    (h : st.caughtException = some e) :
    handleRunError st = (Except.error e, st) ∧
    (handleRunError st).2.caughtException = some e ∧
    handleRunError (handleRunError st).2 = (Except.error e, st) ∧
    (reset chains parentsOf st).caughtException = none ∧
    (reset chains parentsOf st).success = true := by
  have h1 : handleRunError st = (Except.error e, st) := by
    unfold handleRunError
    rw [h]
  exact ⟨h1, by rw [h1]; exact h, by rw [h1]; exact h1, rfl, rfl⟩

/-- Engine state for the C10 witness: a failed run with a captured
exception. -/
def c10St : EngineState :=
  { opEvents := [⟨.FAILED, some "x"⟩],
    parentCounts := [0],
    scheduledFlags := [true],
    success := false,
    caughtException := some (.stdExn "x") }

/-- Witness for C10 on a concrete post-failure engine state. -/
theorem c10_handleRunError_not_consuming_witness :
    c10St.caughtException = some (Exn.stdExn "x") ∧
    (handleRunError c10St = (Except.error (Exn.stdExn "x"), c10St) ∧
     (handleRunError c10St).2.caughtException = some (Exn.stdExn "x") ∧
     handleRunError (handleRunError c10St).2 =
       (Except.error (Exn.stdExn "x"), c10St) ∧
     (reset [[0]] [[]] c10St).caughtException = none ∧
     (reset [[0]] [[]] c10St).success = true) :=
  ⟨rfl, c10_handleRunError_not_consuming c10St (Exn.stdExn "x") [[0]] [[]] rfl⟩

end AsyncNet
